import Mathlib

/-!
Verification of the ML2 macroeconomic simulation engine.

Shallow embedding of the core of the `ml2` package: the variable panel
(`state.py`), the three-phase Gauss-Seidel solver (`solver.py`), the
instrument catalogue and validation (`instruments.py`), the impact
calculator (`impact.py`), the engine orchestrator (`engine.py`) and the
equations referenced by the claims (`equations/production.py`,
`equations/labor.py`, `equations/base.py`).

Numeric values are embedded exactly, with Python floats read as the decimal
rationals they denote.  The solver and engine are embedded generically over
a linear ordered field so that concrete runs can be evaluated over `ℚ`;
the transcendental operators (`math.log`, `math.exp`) appear only in the
`ℝ`-valued equation bodies at the end of the development.

Equations are data to the solver (the Python registry maps variable names
to equation objects), so the embedded solver takes the registry as an
argument; the equations named by the claims are embedded from their
sources and plugged into that registry where a claim needs them.
-/

namespace ML2

/-- Variable names (`VarName` in `ml2/types.py`). -/
abbrev Var := String

/-- Calendar years (`Year` in `ml2/types.py`). -/
abbrev Year := Int

/-- `SimulationState` (`ml2/state.py`): a dense panel indexed by
(variable, year).  `cols` records which columns are present
(`df.columns`), `years` the known year index (`df.index`), and `val` the
cell values.  Cell values are modelled as a total function: the claims
under study never read a missing cell. -/
structure Panel (α : Type) where
  cols : List Var
  years : List Year
  val : Var → Year → α

variable {α : Type} [LinearOrderedField α]

/-- `SimulationState.get`. -/
def Panel.get (p : Panel α) (v : Var) (t : Year) : α :=
  p.val v t

/-- `SimulationState.set`: writes one cell.  A write to a column that is
absent creates it (pandas `df.at` semantics); the claims only ever write
columns created beforehand by `add_var`. -/
def Panel.set (p : Panel α) (v : Var) (t : Year) (x : α) : Panel α :=
  { cols := if v ∈ p.cols then p.cols else p.cols ++ [v]
    years := p.years
    val := fun w s => if w = v ∧ s = t then x else p.val w s }

/-- `SimulationState.has_var`. -/
def Panel.has_var (p : Panel α) (v : Var) : Bool :=
  decide (v ∈ p.cols)

/-- `SimulationState.add_var`: add a new column with a default value for
all years; no-op when the column exists. -/
def Panel.add_var (p : Panel α) (v : Var) (d : α) : Panel α :=
  if v ∈ p.cols then p
  else
    { cols := p.cols ++ [v]
      years := p.years
      val := fun w s => if w = v then d else p.val w s }

/-- `SimulationState.lag`: `var[t-n]`. -/
def Panel.lag (p : Panel α) (v : Var) (t : Year) (n : Int) : α :=
  p.val v (t - n)

/-- `SimulationState.d`: first difference. -/
def Panel.d (p : Panel α) (v : Var) (t : Year) : α :=
  p.get v t - p.lag v t 1

/-- `SimulationState.grt`: growth rate in percent, `0.0` when the lagged
value is zero. -/
def Panel.grt (p : Panel α) (v : Var) (t : Year) : α :=
  let prev := p.lag v t 1
  if prev = 0 then 0 else (p.get v t - prev) / prev * 100

/-- `SimulationState.copy`: a deep copy.  A deep copy of an immutable
value is the value itself in this functional embedding. -/
def Panel.copy (p : Panel α) : Panel α := p

/-- `SimulationState.sim_years`: all known years except the first (the lag
base). -/
def Panel.sim_years (p : Panel α) : List Year :=
  p.years.drop 1

/-- `SimulationState.to_dict` restricted to a variable list: nested
`{var : {year : value}}` map, skipping absent columns. -/
def Panel.to_dict (p : Panel α) (varList : List Var) : List (Var × List (Year × α)) :=
  (varList.filter fun v => p.has_var v).map fun v =>
    (v, p.years.map fun yr => (yr, p.val v yr))

/-- `ConvergenceStatus` (`ml2/types.py`). -/
inductive ConvergenceStatus where
  | CONVERGED
  | MAX_ITERATIONS
  | DIVERGED
deriving DecidableEq

/-- `YearConvergence` (`ml2/solver.py`). -/
structure YearConvergence (α : Type) where
  year : Year
  iterations : ℕ
  max_residual : α
  status : ConvergenceStatus
deriving DecidableEq

/-- An equation's `compute(state, t, scalars)` method, with the fixed
scalar bundle absorbed: a pure function of the panel and the year. -/
abbrev EquationF (α : Type) := Panel α → Year → α

/-- `EquationRegistry` (`ml2/equations/registry.py`): the three phase
orders and the map from a variable name to the equation writing it
(`Registry.get`, which may return `None`). -/
structure Registry (α : Type) where
  pre : List Var
  inter : List Var
  post : List Var
  eqs : Var → Option (EquationF α)

/-- `EquationRegistry.all_variables`. -/
def Registry.all_variables (r : Registry α) : List Var :=
  r.pre ++ r.inter ++ r.post

/-- One recursive phase of `GaussSeidelSolver.solve_year` (phases 1 and
3): a single pass over the order, writing each variable whose equation
exists. -/
def runPhase (eqs : Var → Option (EquationF α)) (order : List Var) (t : Year)
    (p : Panel α) : Panel α :=
  order.foldl
    (fun q v =>
      match eqs v with
      | none => q
      | some e => q.set v t (e q t))
    p

/-- The solver's residual for one variable update (`solver.py` lines
77-81): relative change when `|old| > 1e-10`, absolute change otherwise. -/
def residual (old relaxed : α) : α :=
  if |old| > 1 / 10 ^ 10 then |relaxed - old| / |old| else |relaxed - old|

/-- One variable update inside an inter-phase sweep (`solver.py` lines
64-82): skip when no equation, else compute, under-relax, write back and
fold the residual into the running maximum. -/
def sweepStep (eqs : Var → Option (EquationF α)) (relax : α) (t : Year)
    (acc : Panel α × α) (v : Var) : Panel α × α :=
  match eqs v with
  | none => acc
  | some e =>
    let old := acc.1.get v t
    let relaxed := relax * e acc.1 t + (1 - relax) * old
    (acc.1.set v t relaxed, max acc.2 (residual old relaxed))

/-- One full Gauss-Seidel sweep over the inter order, with the running
maximum residual reset to `0` at the start (`max_resid = 0.0`). -/
def sweep (eqs : Var → Option (EquationF α)) (order : List Var) (relax : α)
    (t : Year) (p : Panel α) : Panel α × α :=
  order.foldl (sweepStep eqs relax t) (p, 0)

/-- The result of the iterative phase: panel, iterations done, last
sweep's maximum residual, and status. -/
structure InterResult (α : Type) where
  panel : Panel α
  iterations : ℕ
  max_residual : α
  status : ConvergenceStatus

/-- The inter-phase loop of `solve_year` (`for it in range(1, max_iter+1)`),
written with the remaining iteration budget as fuel.  `it` and `mr` carry
the `iterations` and `max_resid` Python locals (initially `0` and `0.0`);
exhausting the budget yields `MAX_ITERATIONS`, a sweep whose maximum
residual is below `eps` yields `CONVERGED` at once. -/
def interGo (eqs : Var → Option (EquationF α)) (order : List Var)
    (relax eps : α) (t : Year) :
    ℕ → ℕ → α → Panel α → InterResult α
  | 0, it, mr, p => ⟨p, it, mr, .MAX_ITERATIONS⟩
  | fuel + 1, it, mr, p =>
    let sm := sweep eqs order relax t p
    if sm.2 < eps then ⟨sm.1, it + 1, sm.2, .CONVERGED⟩
    else interGo eqs order relax eps t fuel (it + 1) sm.2 sm.1

/-- `GaussSeidelSolver.solve_year`: pre-recursive pass, iterative
Gauss-Seidel block, post-recursive pass; returns the updated panel and
the year's `YearConvergence` report. -/
def solve_year (reg : Registry α) (relax eps : α) (max_iter : ℕ)
    (p : Panel α) (t : Year) : Panel α × YearConvergence α :=
  let p1 := runPhase reg.eqs reg.pre t p
  let r := interGo reg.eqs reg.inter relax eps t max_iter 0 0 p1
  let p3 := runPhase reg.eqs reg.post t r.panel
  (p3, ⟨t, r.iterations, r.max_residual, r.status⟩)

/-- One step of the year loop of `GaussSeidelSolver.solve`: solve year `t`
from the accumulated panel and append the year's report. -/
def solveStep (reg : Registry α) (relax eps : α) (max_iter : ℕ)
    (acc : Panel α × List (YearConvergence α)) (t : Year) :
    Panel α × List (YearConvergence α) :=
  let r := solve_year reg relax eps max_iter acc.1 t
  (r.1, acc.2 ++ [r.2])

/-- `GaussSeidelSolver.solve`: the year loop, in calendar order, threading
the panel and collecting one report per year. -/
def solve (reg : Registry α) (relax eps : α) (max_iter : ℕ) (p : Panel α)
    (sim_years : List Year) : Panel α × List (YearConvergence α) :=
  sim_years.foldl (solveStep reg relax eps max_iter) (p, [])

/-- `CapacityUtilizationEquation.compute` (`equations/production.py`):
`ZKF = Y / YSTAR` clamped to `[0.80, 1.10]`, and `1.0` when `YSTAR = 0`. -/
def capacity_utilization_compute (p : Panel α) (t : Year) : α :=
  let ystar := p.get "YSTAR_" t
  if ystar = 0 then 1
  else max (8 / 10) (min (11 / 10) (p.get "Y_" t / ystar))

/-- `UnemploymentEquation.compute` (`equations/labor.py`):
`U = NAT - L - NG`. -/
def unemployment_compute (p : Panel α) (t : Year) : α :=
  p.get "NAT_" t - p.get "L_" t - p.get "NG_" t

/-- `InstrumentSpec` (`ml2/instruments.py`). -/
structure InstrumentSpec (α : Type) where
  key : String
  label : String
  unit : String
  default : α
  min_val : α
  max_val : α
  description : String
deriving DecidableEq

/-- The static instrument catalogue `INSTRUMENTS` (`ml2/instruments.py`),
descriptions elided. -/
def INSTRUMENTS : List (InstrumentSpec α) :=
  [⟨"VIG_X", "Public Investments", "mln EUR (change)", 0, -2000, 6000, ""⟩,
   ⟨"ITPC0R_X", "VAT Rate", "% (level)", 21, 15, 27, ""⟩,
   ⟨"DTH_X", "Income Tax Receipts", "mln EUR (change)", 0, -10000, 10000, ""⟩,
   ⟨"CSSFR_X", "Employer SSC Rate", "% of wages (level)", 30, 25, 40, ""⟩,
   ⟨"CSSHR_X", "Employee SSC Rate", "% of wages (level)", 13, 10, 20, ""⟩,
   ⟨"TGH_X", "Transfers to Households", "% (growth rate)", 0, -5, 5, ""⟩,
   ⟨"WR_X", "Private Wage Correction", "pp", 0, -2, 2, ""⟩,
   ⟨"WGRR_X", "Public Real Wage Growth", "% p.a.", 0, -2, 5, ""⟩,
   ⟨"NG_X", "Public Employment", "thousands (change)", 0, -40, 40, ""⟩,
   ⟨"ZX_X", "Indexation Correction", "pp", 0, -2, 0, ""⟩]

/-- `INSTRUMENT_MAP.get(key)`: the catalogue keyed by instrument key. -/
def instrument_map (key : String) : Option (InstrumentSpec α) :=
  INSTRUMENTS.find? fun i => i.key == key

/-- `get_default_instruments` (`ml2/instruments.py`). -/
def get_default_instruments : List (String × α) :=
  INSTRUMENTS.map fun i => (i.key, i.default)

/-- The loop body of `validate_instruments` (`ml2/instruments.py`):
append the entry's error message, if any, to the running list.  `render`
stands for Python's float-to-string formatting inside the f-strings. -/
def validate_step (render : α → String) (errs : List String)
    (kv : String × α) : List String :=
  match instrument_map kv.1 with
  | none => errs ++ ["Unknown instrument: " ++ kv.1]
  | some spec =>
    if kv.2 < spec.min_val ∨ kv.2 > spec.max_val then
      errs ++ [kv.1 ++ ": " ++ render kv.2 ++ " out of range [" ++
        render spec.min_val ++ ", " ++ render spec.max_val ++ "]"]
    else errs

/-- `validate_instruments` (`ml2/instruments.py`): one error message per
offending entry. -/
def validate_instruments (render : α → String) (values : List (String × α)) :
    List String :=
  values.foldl (validate_step render) []

/-- `apply_instruments` (`ml2/instruments.py`): for every simulation year
write every instrument value (creating the column first when absent), then
the three direct mappings to model variables. -/
def apply_instruments (p : Panel α) (instrument_values : List (String × α))
    (sim_years : List Year) : Panel α :=
  sim_years.foldl
    (fun q year =>
      let q1 := instrument_values.foldl
        (fun q kv =>
          let q := if q.has_var kv.1 then q else q.add_var kv.1 0
          q.set kv.1 year kv.2)
        q
      let q2 := match instrument_values.lookup "ITPC0R_X" with
        | some v => q1.set "ITPC0R_" year v
        | none => q1
      let q3 := match instrument_values.lookup "CSSFR_X" with
        | some v => q2.set "CSSFR_" year (v / 100)
        | none => q2
      match instrument_values.lookup "CSSHR_X" with
      | some v => q3.set "CSSHR_" year (v / 100)
      | none => q3)
    p

/-- `ABSOLUTE_IMPACT_VARS` (`ml2/impact.py`). -/
def ABSOLUTE_IMPACT_VARS : List Var :=
  ["DR_", "UR_", "BR_", "TBR_", "YGAP_", "ZKF_"]

/-- `compute_impacts` (`ml2/impact.py`): percentage-point difference for
the ratio variables, percent deviation when the baseline is away from
zero, `0.0` otherwise. -/
def compute_impacts (baseline scenario : Panel α) (varList : List Var)
    (sim_years : List Year) : List (Var × List (Year × α)) :=
  varList.map fun v =>
    (v, sim_years.map fun t =>
      let base_val := baseline.get v t
      let scen_val := scenario.get v t
      (t,
        if v ∈ ABSOLUTE_IMPACT_VARS then (scen_val - base_val) * 100
        else if |base_val| > 1 / 10 ^ 10 then
          (scen_val - base_val) / base_val * 100
        else 0))

/-- Value of an impact map at one variable and year. -/
def impact_at (impacts : List (Var × List (Year × α))) (v : Var) (t : Year) :
    Option α :=
  (impacts.lookup v).bind fun row => row.lookup t

/-- `KeyIndicators` (`ml2/engine.py`). -/
structure KeyIndicators (α : Type) where
  years : List Year
  gdp_growth : List α
  inflation : List α
  deficit_ratio : List α
  unemployment : List α
deriving DecidableEq

/-- `SimulationEngine._extract_indicators`. -/
def extract_indicators (p : Panel α) (sim_years : List Year) :
    KeyIndicators α :=
  { years := sim_years
    gdp_growth := sim_years.map fun t => p.grt "GDP_" t
    inflation := sim_years.map fun t => p.grt "PC_" t
    deficit_ratio := sim_years.map fun t => p.get "DR_" t * 100
    unemployment := sim_years.map fun t => p.get "UR_" t * 100 }

/-- The fixed headline-variable list of `SimulationEngine.simulate`. -/
def LEVEL_VARS : List Var :=
  ["GDP_", "C_", "IF_", "IH_", "IG_", "X_", "M_",
   "PC_", "W_", "L_", "U_", "UR_", "DR_", "BR_",
   "YDH_", "GDPN_", "K_", "PROD_", "ULC_",
   "GRECEIPTS_", "GEXPENSE_", "D_", "B_"]

/-- `SimulationOutput` (`ml2/engine.py`); the convergence reports are kept
structured (the code serialises them to dicts, rounding the residual for
display). -/
structure SimulationOutput (α : Type) where
  name : String
  years : List Year
  baseline_indicators : KeyIndicators α
  scenario_indicators : KeyIndicators α
  impacts : List (Var × List (Year × α))
  levels : List (Var × List (Year × α))
  convergence : List (YearConvergence α)
  instruments : List (String × α)
deriving DecidableEq

/-- `SimulationEngine`'s state: the loaded baseline panel.  The registry,
scalar bundle and solver configuration are construction-time constants,
passed explicitly here. -/
structure SimulationEngine (α : Type) where
  baseline : Panel α

/-- Python `dict.update`: existing keys overridden in place, new keys
appended in order. -/
def dict_update (base upd : List (String × α)) : List (String × α) :=
  (base.map fun kv =>
    match upd.lookup kv.1 with
    | some v => (kv.1, v)
    | none => kv) ++
  upd.filter fun kv => (base.lookup kv.1).isNone

/-- The body of `SimulationEngine.simulate` after validation: copy the
baseline twice, apply the resolved instruments to the scenario copy, solve
the scenario over the simulation years with the default solver
configuration, and package indicators, impacts, levels, convergence and
the resolved instrument vector. -/
def run_scenario (reg : Registry α) (baseline : Panel α)
    (instruments : List (String × α)) (name : String) : SimulationOutput α :=
  let baseline_state := baseline.copy
  let scenario_state := baseline.copy
  let sim_years := scenario_state.sim_years
  let scenario_state := apply_instruments scenario_state instruments sim_years
  let solved := solve reg (2 / 10) (1 / 10000) 1000 scenario_state sim_years
  let scenario_state := solved.1
  let convergence := solved.2
  { name := name
    years := sim_years
    baseline_indicators := extract_indicators baseline_state sim_years
    scenario_indicators := extract_indicators scenario_state sim_years
    impacts := compute_impacts baseline_state scenario_state
      reg.all_variables sim_years
    levels := scenario_state.to_dict LEVEL_VARS
    convergence := convergence
    instruments := instruments }

/-- `SimulationEngine.simulate`: merge the supplied instrument values with
the catalogue defaults, validate them (a falsy `instrument_values` - `None`
or the empty dict - skips validation), raise `ValueError` with the
concatenated message on any error, otherwise run the scenario.  The engine
itself is returned alongside: the method never touches the stored baseline. -/
def simulate (reg : Registry α) (engine : SimulationEngine α)
    (instrument_values : Option (List (String × α))) (name : String)
    (render : α → String) :
    SimulationEngine α × Except String (SimulationOutput α) :=
  match instrument_values with
  | none =>
    (engine, .ok (run_scenario reg engine.baseline get_default_instruments name))
  | some vs =>
    if vs = [] then
      (engine, .ok (run_scenario reg engine.baseline get_default_instruments name))
    else
      let errors := validate_instruments render vs
      if errors ≠ [] then
        (engine, .error ("Invalid instruments: " ++ String.intercalate "; " errors))
      else
        (engine, .ok (run_scenario reg engine.baseline
          (dict_update get_default_instruments vs) name))

/-- The scalar parameter bundle `ML2Scalars` (`ml2/parameters.py`),
restricted to the coefficients the embedded equations read. -/
structure ML2Scalars (α : Type) where
  alpha : α
  lh0 : α
  lh1 : α
  lh2 : α
  c0 : α
  c1 : α
  c2 : α
  c3 : α
  c4 : α
  c5 : α
  c6 : α
  if0 : α
  if1 : α
  if2 : α
  if3 : α
  if4 : α
  if5 : α
  if6 : α
  ih0 : α
  ih1 : α
  ih2 : α
  ih3 : α
  ih4 : α
  w0 : α
  w1 : α
  w2 : α
  w3 : α
  w4 : α
  w5 : α
  pc0 : α
  pc1 : α
  pc2 : α
  pc3 : α
  pc4 : α
  pc5 : α
  pc_vat : α
  pif1 : α
  pif2 : α
  pif3 : α
  pih1 : α
  pih2 : α
  pih3 : α
  px1 : α
  px2 : α
  px3 : α
  x0 : α
  x1 : α
  x2 : α
  x3 : α
  x4 : α
  x5 : α
  m0 : α
  m1 : α
  m2 : α
  m3 : α
  m4 : α
  m5 : α
  nairu : α
  world_growth : α
  pm_growth : α
  pcomp_growth : α
  vat_rate : α

/-- The calibrated values of those scalars (`ml2/parameters.py` defaults). -/
def ml2_scalars : ML2Scalars ℝ where
  alpha := 0.675
  lh0 := -0.002
  lh1 := 0.45
  lh2 := -0.12
  c0 := 0.003
  c1 := 0.55
  c2 := -0.15
  c3 := -0.08
  c4 := -0.10
  c5 := 0.85
  c6 := 0.30
  if0 := 0.002
  if1 := 0.35
  if2 := 0.15
  if3 := -0.10
  if4 := 0.20
  if5 := -0.08
  if6 := 0.90
  ih0 := 0.001
  ih1 := 0.40
  ih2 := -0.25
  ih3 := -0.06
  ih4 := 0.80
  w0 := 0.002
  w1 := 0.95
  w2 := 0.60
  w3 := -0.50
  w4 := -0.08
  w5 := 0.55
  pc0 := 0.001
  pc1 := 0.70
  pc2 := 0.20
  pc3 := 0.05
  pc4 := -0.10
  pc5 := 0.90
  pc_vat := 0.38
  pif1 := 0.60
  pif2 := 0.30
  pif3 := -0.08
  pih1 := 0.50
  pih2 := 0.25
  pih3 := -0.06
  px1 := 0.40
  px2 := 0.55
  px3 := -0.12
  x0 := 0.002
  x1 := 0.80
  x2 := -0.30
  x3 := -0.10
  x4 := 1.00
  x5 := -0.50
  m0 := 0.001
  m1 := 0.70
  m2 := 0.20
  m3 := -0.08
  m4 := 1.10
  m5 := 0.40
  nairu := 0.08
  world_growth := 0.03
  pm_growth := 0.015
  pcomp_growth := 0.015
  vat_rate := 0.21

/-- `safe_exp` (`equations/base.py`): the clamped exponential
`exp(clamp(x, -0.5, 0.5))`, always called with the default limit `0.5`. -/
noncomputable def safe_exp (x : ℝ) : ℝ :=
  Real.exp (max (-(1 / 2)) (min (1 / 2) x))

/-- `SimulationState.dln` (`ml2/state.py`): log first difference,
`0.0` when either value is non-positive. -/
noncomputable def dln (p : Panel ℝ) (v : Var) (t : Year) : ℝ :=
  let cur := p.get v t
  let prev := p.lag v t 1
  if cur ≤ 0 ∨ prev ≤ 0 then 0 else Real.log cur - Real.log prev

/-- `LabourHoursEquation.compute` (`equations/labor.py`). -/
noncomputable def labour_hours_compute (s : ML2Scalars ℝ) (p : Panel ℝ)
    (t : Year) : ℝ :=
  let lh_prev := p.lag "LH_" t 1
  if lh_prev ≤ 0 then lh_prev
  else
    let dln_y := dln p "Y_" t
    let y_1 := p.lag "Y_" t 1
    let k_1 := p.lag "K_" t 1
    let tfp_1 := p.lag "TFP_" t 1
    let lh_1 := lh_prev
    let ecm :=
      if 0 < y_1 ∧ 0 < k_1 ∧ 0 < tfp_1 ∧ 0 < lh_1 then
        Real.log y_1 - (1 - s.alpha) * Real.log k_1 - Real.log tfp_1 -
          s.alpha * Real.log lh_1
      else 0
    lh_prev * safe_exp (s.lh0 + s.lh1 * dln_y + s.lh2 * ecm)

/-- `WageEquation.compute` (`equations/labor.py`). -/
noncomputable def wage_compute (s : ML2Scalars ℝ) (p : Panel ℝ)
    (t : Year) : ℝ :=
  let w_prev := p.lag "W_" t 1
  if w_prev ≤ 0 then w_prev
  else
    let dln_pc := dln p "PC_" t
    let y := p.get "Y_" t
    let lh := p.get "LH_" t
    let y_1 := p.lag "Y_" t 1
    let lh_1 := p.lag "LH_" t 1
    let dln_prod :=
      if 0 < y ∧ 0 < lh ∧ 0 < y_1 ∧ 0 < lh_1 then
        Real.log (y / lh) - Real.log (y_1 / lh_1)
      else 0
    let ur_gap := p.get "UR_" t - s.nairu
    let l_1 := p.lag "L_" t 1
    let pc_1 := p.lag "PC_" t 1
    let ws_1 :=
      if 0 < y_1 ∧ 0 < pc_1 then (w_prev * l_1) / (pc_1 * y_1 * 1000)
      else s.w5
    let dln_w := s.w0 + s.w1 * dln_pc + s.w2 * dln_prod + s.w3 * ur_gap +
      s.w4 * (ws_1 - s.w5)
    let wr_x := if p.has_var "WR_X" then p.get "WR_X" t else 0
    let dln_w := dln_w + wr_x / 100
    let zx_x := if p.has_var "ZX_X" then p.get "ZX_X" t else 0
    let dln_w := dln_w + zx_x / 100
    w_prev * safe_exp dln_w

/-- `ConsumptionEquation.compute` (`equations/behavioral.py`). -/
noncomputable def consumption_compute (s : ML2Scalars ℝ) (p : Panel ℝ)
    (t : Year) : ℝ :=
  let c_prev := p.lag "C_" t 1
  if c_prev ≤ 0 then c_prev
  else
    let ydh := p.get "YDH_" t
    let pc := p.get "PC_" t
    let ydh_1 := p.lag "YDH_" t 1
    let pc_1 := p.lag "PC_" t 1
    let dln_rydi :=
      if 0 < ydh ∧ 0 < pc ∧ 0 < ydh_1 ∧ 0 < pc_1 then
        Real.log (ydh / pc) - Real.log (ydh_1 / pc_1)
      else 0
    let rr := if p.has_var "RREAL_" then p.get "RREAL_" t else 0
    let rr_1 := if p.has_var "RREAL_" then p.lag "RREAL_" t 1 else 0
    let d_rreal := rr - rr_1
    let d_ur := p.d "UR_" t
    let c_1 := p.lag "C_" t 1
    let ecm :=
      if 0 < c_1 ∧ 0 < ydh_1 ∧ 0 < pc_1 then
        Real.log c_1 - s.c5 * Real.log (ydh_1 / pc_1)
      else 0
    let c_2 := if (t - 2) ∈ p.years then p.lag "C_" t 2 else c_1
    let dln_c_lag :=
      if 0 < c_2 ∧ 0 < c_1 then Real.log c_1 - Real.log c_2 else 0
    let dln_c := s.c0 + s.c1 * dln_rydi + s.c2 * d_rreal + s.c3 * d_ur +
      s.c4 * ecm + s.c6 * dln_c_lag
    c_prev * safe_exp dln_c

/-- `BusinessInvestmentEquation.compute` (`equations/behavioral.py`). -/
noncomputable def business_investment_compute (s : ML2Scalars ℝ) (p : Panel ℝ)
    (t : Year) : ℝ :=
  let if_prev := p.lag "IF_" t 1
  if if_prev ≤ 0 then if_prev
  else
    let dln_y := dln p "Y_" t
    let profit := if p.has_var "PROFIT_" then p.get "PROFIT_" t else 0
    let profit_1 := if p.has_var "PROFIT_" then p.lag "PROFIT_" t 1 else 0
    let d_profit := profit - profit_1
    let rr := if p.has_var "RREAL_" then p.get "RREAL_" t else 0
    let rr_1 := if p.has_var "RREAL_" then p.lag "RREAL_" t 1 else 0
    let d_rreal := rr - rr_1
    let d_zkf := p.get "ZKF_" t - p.lag "ZKF_" t 1
    let y_1 := p.lag "Y_" t 1
    let ecm :=
      if 0 < if_prev ∧ 0 < y_1 then
        Real.log if_prev - s.if6 * Real.log y_1
      else 0
    let dln_if := s.if0 + s.if1 * dln_y + s.if2 * d_profit + s.if3 * d_rreal +
      s.if4 * d_zkf + s.if5 * ecm
    if_prev * safe_exp dln_if

/-- `HousingInvestmentEquation.compute` (`equations/behavioral.py`). -/
noncomputable def housing_investment_compute (s : ML2Scalars ℝ) (p : Panel ℝ)
    (t : Year) : ℝ :=
  let ih_prev := p.lag "IH_" t 1
  if ih_prev ≤ 0 then ih_prev
  else
    let ydh := p.get "YDH_" t
    let pc := p.get "PC_" t
    let ydh_1 := p.lag "YDH_" t 1
    let pc_1 := p.lag "PC_" t 1
    let dln_rydi :=
      if 0 < ydh ∧ 0 < pc ∧ 0 < ydh_1 ∧ 0 < pc_1 then
        Real.log (ydh / pc) - Real.log (ydh_1 / pc_1)
      else 0
    let rm := if p.has_var "RMORT_" then p.get "RMORT_" t else 0
    let rm_1 := if p.has_var "RMORT_" then p.lag "RMORT_" t 1 else 0
    let d_rmort := rm - rm_1
    let ecm :=
      if 0 < ih_prev ∧ 0 < ydh_1 ∧ 0 < pc_1 then
        Real.log ih_prev - s.ih4 * Real.log (ydh_1 / pc_1)
      else 0
    let dln_ih := s.ih0 + s.ih1 * dln_rydi + s.ih2 * d_rmort + s.ih3 * ecm
    ih_prev * safe_exp dln_ih

/-- `ExportVolumeEquation.compute` (`equations/behavioral.py`). -/
noncomputable def export_volume_compute (s : ML2Scalars ℝ) (p : Panel ℝ)
    (t : Year) : ℝ :=
  let x_prev := p.lag "X_" t 1
  if x_prev ≤ 0 then x_prev
  else
    let dln_xw := if p.has_var "XWORLD_" then dln p "XWORLD_" t
      else s.world_growth
    let px := p.get "PX_" t
    let pcomp := if p.has_var "PCOMP_" then p.get "PCOMP_" t else 1
    let px_1 := p.lag "PX_" t 1
    let pcomp_1 := if p.has_var "PCOMP_" then p.lag "PCOMP_" t 1 else 1
    let dln_relpx :=
      if 0 < px ∧ 0 < pcomp ∧ 0 < px_1 ∧ 0 < pcomp_1 then
        Real.log (px / pcomp) - Real.log (px_1 / pcomp_1)
      else 0
    let xw_1 := if p.has_var "XWORLD_" then p.lag "XWORLD_" t 1 else 1
    let ecm :=
      if 0 < x_prev ∧ 0 < xw_1 ∧ 0 < px_1 ∧ 0 < pcomp_1 then
        Real.log x_prev - s.x4 * Real.log xw_1 -
          s.x5 * Real.log (px_1 / pcomp_1)
      else 0
    let dln_x := s.x0 + s.x1 * dln_xw + s.x2 * dln_relpx + s.x3 * ecm
    x_prev * safe_exp dln_x

/-- `ImportVolumeEquation.compute` (`equations/behavioral.py`). -/
noncomputable def import_volume_compute (s : ML2Scalars ℝ) (p : Panel ℝ)
    (t : Year) : ℝ :=
  let m_prev := p.lag "M_" t 1
  if m_prev ≤ 0 then m_prev
  else
    let dln_dd := if p.has_var "DD_" then dln p "DD_" t else 0
    let pm := if p.has_var "PM_" then p.get "PM_" t else 1
    let pc := p.get "PC_" t
    let pm_1 := if p.has_var "PM_" then p.lag "PM_" t 1 else 1
    let pc_1 := p.lag "PC_" t 1
    let dln_relpm :=
      if 0 < pm ∧ 0 < pc ∧ 0 < pm_1 ∧ 0 < pc_1 then
        Real.log (pm / pc) - Real.log (pm_1 / pc_1)
      else 0
    let dd_1 := if p.has_var "DD_" then p.lag "DD_" t 1 else 1
    let ecm :=
      if 0 < m_prev ∧ 0 < dd_1 ∧ 0 < pm_1 ∧ 0 < pc_1 then
        Real.log m_prev - s.m4 * Real.log dd_1 -
          s.m5 * Real.log (pm_1 / pc_1)
      else 0
    let dln_m := s.m0 + s.m1 * dln_dd + s.m2 * dln_relpm + s.m3 * ecm
    m_prev * safe_exp dln_m

/-- `ConsumerPriceEquation.compute` (`equations/prices.py`). -/
noncomputable def consumer_price_compute (s : ML2Scalars ℝ) (p : Panel ℝ)
    (t : Year) : ℝ :=
  let pc_prev := p.lag "PC_" t 1
  if pc_prev ≤ 0 then pc_prev
  else
    let dln_cost := dln p "COST_" t
    let dln_pm := if p.has_var "PM_" then dln p "PM_" t else s.pm_growth
    let ygap := p.get "YGAP_" t
    let cost_1 := p.lag "COST_" t 1
    let ecm :=
      if 0 < pc_prev ∧ 0 < cost_1 then
        Real.log pc_prev - s.pc5 * Real.log cost_1
      else 0
    let vat := if p.has_var "ITPC0R_" then p.get "ITPC0R_" t
      else s.vat_rate * 100
    let vat_1 := if p.has_var "ITPC0R_" then p.lag "ITPC0R_" t 1
      else s.vat_rate * 100
    let d_vat := (vat - vat_1) / 100
    let dln_pc := s.pc0 + s.pc1 * dln_cost + s.pc2 * dln_pm + s.pc3 * ygap +
      s.pc4 * ecm + s.pc_vat * d_vat
    pc_prev * safe_exp dln_pc

/-- `BusinessInvestmentDeflatorEquation.compute` (`equations/prices.py`). -/
noncomputable def business_investment_deflator_compute (s : ML2Scalars ℝ)
    (p : Panel ℝ) (t : Year) : ℝ :=
  let pif_prev := p.lag "PIF_" t 1
  if pif_prev ≤ 0 then pif_prev
  else
    let dln_cost := dln p "COST_" t
    let dln_pm := if p.has_var "PM_" then dln p "PM_" t else s.pm_growth
    let cost_1 := p.lag "COST_" t 1
    let ecm :=
      if 0 < pif_prev ∧ 0 < cost_1 then
        Real.log pif_prev - Real.log cost_1
      else 0
    pif_prev * safe_exp (s.pif1 * dln_cost + s.pif2 * dln_pm + s.pif3 * ecm)

/-- `HousingInvestmentDeflatorEquation.compute` (`equations/prices.py`). -/
noncomputable def housing_investment_deflator_compute (s : ML2Scalars ℝ)
    (p : Panel ℝ) (t : Year) : ℝ :=
  let pih_prev := p.lag "PIH_" t 1
  if pih_prev ≤ 0 then pih_prev
  else
    let dln_cost := dln p "COST_" t
    let dln_pm := if p.has_var "PM_" then dln p "PM_" t else s.pm_growth
    let cost_1 := p.lag "COST_" t 1
    let ecm :=
      if 0 < pih_prev ∧ 0 < cost_1 then
        Real.log pih_prev - Real.log cost_1
      else 0
    pih_prev * safe_exp (s.pih1 * dln_cost + s.pih2 * dln_pm + s.pih3 * ecm)

/-- `ExportPriceEquation.compute` (`equations/prices.py`). -/
noncomputable def export_price_compute (s : ML2Scalars ℝ) (p : Panel ℝ)
    (t : Year) : ℝ :=
  let px_prev := p.lag "PX_" t 1
  if px_prev ≤ 0 then px_prev
  else
    let dln_cost := dln p "COST_" t
    let dln_pcomp := if p.has_var "PCOMP_" then dln p "PCOMP_" t
      else s.pcomp_growth
    let pcomp_1 := if p.has_var "PCOMP_" then p.lag "PCOMP_" t 1 else 1
    let ecm :=
      if 0 < px_prev ∧ 0 < pcomp_1 then
        Real.log px_prev - Real.log pcomp_1
      else 0
    px_prev * safe_exp (s.px1 * dln_cost + s.px2 * dln_pcomp + s.px3 * ecm)

/-! ## General lemmas about the embedded solver -/

lemma Panel.get_set (p : Panel α) (v : Var) (t : Year) (x : α) (w : Var)
    (s : Year) :
    (p.set v t x).get w s = if w = v ∧ s = t then x else p.get w s := rfl

lemma interGo_status_dichotomy (eqs : Var → Option (EquationF α))
    (order : List Var) (relax eps : α) (t : Year) :
    ∀ (fuel it : ℕ) (mr : α) (p : Panel α),
      (interGo eqs order relax eps t fuel it mr p).status =
          ConvergenceStatus.CONVERGED ∨
        (interGo eqs order relax eps t fuel it mr p).status =
          ConvergenceStatus.MAX_ITERATIONS := by
  intro fuel
  induction fuel with
  | zero => intro it mr p; right; rfl
  | succ n ih =>
    intro it mr p
    simp only [interGo]
    split
    · left; rfl
    · exact ih _ _ _

lemma interGo_converged_resid (eqs : Var → Option (EquationF α))
    (order : List Var) (relax eps : α) (t : Year) :
    ∀ (fuel it : ℕ) (mr : α) (p : Panel α),
      (interGo eqs order relax eps t fuel it mr p).status =
          ConvergenceStatus.CONVERGED →
        (interGo eqs order relax eps t fuel it mr p).max_residual < eps := by
  intro fuel
  induction fuel with
  | zero => intro it mr p h; exact absurd h (by simp [interGo])
  | succ n ih =>
    intro it mr p
    simp only [interGo]
    split
    · intro _; assumption
    · exact ih _ _ _

lemma interGo_converged_iterations (eqs : Var → Option (EquationF α))
    (order : List Var) (relax eps : α) (t : Year) :
    ∀ (fuel it : ℕ) (mr : α) (p : Panel α),
      (interGo eqs order relax eps t fuel it mr p).status =
          ConvergenceStatus.CONVERGED →
        it < (interGo eqs order relax eps t fuel it mr p).iterations ∧
          (interGo eqs order relax eps t fuel it mr p).iterations ≤ it + fuel := by
  intro fuel
  induction fuel with
  | zero => intro it mr p h; exact absurd h (by simp [interGo])
  | succ n ih =>
    intro it mr p
    simp only [interGo]
    split
    · intro _
      show it < it + 1 ∧ it + 1 ≤ it + (n + 1)
      omega
    · intro h
      obtain ⟨h1, h2⟩ := ih (it + 1) _ _ h
      exact ⟨by omega, by omega⟩

lemma interGo_max_iterations (eqs : Var → Option (EquationF α))
    (order : List Var) (relax eps : α) (t : Year) :
    ∀ (fuel it : ℕ) (mr : α) (p : Panel α), (eps ≤ mr ∨ 1 ≤ fuel) →
      (interGo eqs order relax eps t fuel it mr p).status =
          ConvergenceStatus.MAX_ITERATIONS →
        (interGo eqs order relax eps t fuel it mr p).iterations = it + fuel ∧
          eps ≤ (interGo eqs order relax eps t fuel it mr p).max_residual := by
  intro fuel
  induction fuel with
  | zero =>
    intro it mr p hpre _
    refine ⟨rfl, ?_⟩
    rcases hpre with h | h
    · exact h
    · omega
  | succ n ih =>
    intro it mr p _
    simp only [interGo]
    split
    · intro h; cases h
    · intro h
      rename_i hres
      obtain ⟨h1, h2⟩ := ih (it + 1) _ _ (Or.inl (not_lt.mp hres)) h
      exact ⟨by omega, h2⟩

/-- The status of `solve_year` for any registry, configuration and panel. -/
lemma solve_year_status (reg : Registry α) (relax eps : α) (max_iter : ℕ)
    (p : Panel α) (t : Year) :
    (solve_year reg relax eps max_iter p t).2.status =
        ConvergenceStatus.CONVERGED ∨
      (solve_year reg relax eps max_iter p t).2.status =
        ConvergenceStatus.MAX_ITERATIONS := by
  exact interGo_status_dichotomy reg.eqs reg.inter relax eps t max_iter 0 0 _

lemma solve_reports_length (reg : Registry α) (relax eps : α) (max_iter : ℕ)
    (p : Panel α) (sim_years : List Year) :
    (solve reg relax eps max_iter p sim_years).2.length = sim_years.length := by
  suffices h : ∀ (acc : Panel α × List (YearConvergence α)),
      (sim_years.foldl (solveStep reg relax eps max_iter) acc).2.length =
        acc.2.length + sim_years.length by
    simpa [solve] using h (p, [])
  induction sim_years with
  | nil => intro acc; simp
  | cons y ys ih =>
    intro acc
    simp only [List.foldl_cons]
    rw [ih]
    simp [solveStep]
    omega

lemma runPhase_get_not_mem (eqs : Var → Option (EquationF α)) (t : Year)
    (v : Var) (s : Year) :
    ∀ (order : List Var), v ∉ order → ∀ p : Panel α,
      (runPhase eqs order t p).get v s = p.get v s := by
  intro order
  induction order with
  | nil => intro _ p; rfl
  | cons w ws ih =>
    intro hv p
    have hvw : v ≠ w := by rintro rfl; exact hv (List.mem_cons_self _ _)
    have hv2 : v ∉ ws := fun h => hv (List.mem_cons_of_mem _ h)
    have hstep : runPhase eqs (w :: ws) t p =
        runPhase eqs ws t
          (match eqs w with
           | none => p
           | some e => p.set w t (e p t)) := rfl
    rw [hstep, ih hv2]
    cases heq : eqs w with
    | none => rfl
    | some e =>
      show (p.set w t (e p t)).get v s = p.get v s
      simp [Panel.get_set, hvw]

lemma foldl_sweepStep_get_not_mem (eqs : Var → Option (EquationF α))
    (relax : α) (t : Year) (v : Var) (s : Year) :
    ∀ (l : List Var), v ∉ l → ∀ acc : Panel α × α,
      ((l.foldl (sweepStep eqs relax t) acc).1).get v s = acc.1.get v s := by
  intro l
  induction l with
  | nil => intro _ acc; rfl
  | cons w ws ih =>
    intro hv acc
    have hvw : v ≠ w := by rintro rfl; exact hv (List.mem_cons_self _ _)
    have hv2 : v ∉ ws := fun h => hv (List.mem_cons_of_mem _ h)
    rw [List.foldl_cons, ih hv2]
    cases heq : eqs w with
    | none => simp [sweepStep, heq]
    | some e => simp [sweepStep, heq, Panel.get_set, hvw]

lemma foldl_sweepStep_snd_le (eqs : Var → Option (EquationF α)) (relax : α)
    (t : Year) :
    ∀ (l : List Var) (acc : Panel α × α),
      acc.2 ≤ (l.foldl (sweepStep eqs relax t) acc).2 := by
  intro l
  induction l with
  | nil => intro acc; exact le_rfl
  | cons w ws ih =>
    intro acc
    rw [List.foldl_cons]
    refine le_trans ?_ (ih _)
    cases heq : eqs w with
    | none => simp [sweepStep, heq]
    | some e => simp [sweepStep, heq]

lemma abs_sub_lt_of_residual_lt (old relaxed eps : α)
    (h : residual old relaxed < eps) :
    |relaxed - old| < eps * max |old| 1 := by
  unfold residual at h
  by_cases hold : |old| > 1 / 10 ^ 10
  · rw [if_pos hold] at h
    have hpos : (0 : α) < |old| := lt_trans (by positivity) hold
    rw [div_lt_iff hpos] at h
    have heps : 0 < eps := by nlinarith [abs_nonneg (relaxed - old)]
    calc |relaxed - old| < eps * |old| := h
      _ ≤ eps * max |old| 1 :=
          mul_le_mul_of_nonneg_left (le_max_left _ _) heps.le
  · rw [if_neg hold] at h
    have heps : 0 < eps := lt_of_le_of_lt (abs_nonneg _) h
    calc |relaxed - old| < eps := h
      _ = eps * 1 := (mul_one eps).symm
      _ ≤ eps * max |old| 1 :=
          mul_le_mul_of_nonneg_left (le_max_right _ _) heps.le

lemma capacity_utilization_mem (p : Panel α) (t : Year) :
    8 / 10 ≤ capacity_utilization_compute p t ∧
      capacity_utilization_compute p t ≤ 11 / 10 := by
  by_cases h : p.get "YSTAR_" t = 0
  · simp only [capacity_utilization_compute, if_pos h]
    constructor <;> norm_num
  · simp only [capacity_utilization_compute, if_neg h]
    exact ⟨le_max_left _ _, max_le (by norm_num) (min_le_left _ _)⟩

lemma sweepStep_eq_none (eqs : Var → Option (EquationF α)) (relax : α)
    (t : Year) (acc : Panel α × α) (v : Var) (heq : eqs v = none) :
    sweepStep eqs relax t acc v = acc := by
  simp only [sweepStep, heq]

lemma sweepStep_eq_some (eqs : Var → Option (EquationF α)) (relax : α)
    (t : Year) (acc : Panel α × α) (v : Var) (e : EquationF α)
    (heq : eqs v = some e) :
    sweepStep eqs relax t acc v =
      (acc.1.set v t (relax * e acc.1 t + (1 - relax) * acc.1.get v t),
        max acc.2 (residual (acc.1.get v t)
          (relax * e acc.1 t + (1 - relax) * acc.1.get v t))) := by
  simp only [sweepStep, heq]

lemma sweepStep_zkf_mem (eqs : Var → Option (EquationF α)) (relax : α)
    (t : Year) (h0 : 0 ≤ relax) (h1 : relax ≤ 1)
    (hz : eqs "ZKF_" = some capacity_utilization_compute)
    (lo hi : α) (hlo : lo ≤ 8 / 10) (hhi : 11 / 10 ≤ hi)
    (acc : Panel α × α) (v : Var)
    (h2 : lo ≤ acc.1.get "ZKF_" t) (h3 : acc.1.get "ZKF_" t ≤ hi) :
    lo ≤ (sweepStep eqs relax t acc v).1.get "ZKF_" t ∧
      (sweepStep eqs relax t acc v).1.get "ZKF_" t ≤ hi := by
  by_cases hv : v = "ZKF_"
  · subst hv
    rw [sweepStep_eq_some eqs relax t acc _ _ hz]
    show lo ≤ (acc.1.set "ZKF_" t _).get "ZKF_" t ∧
      (acc.1.set "ZKF_" t _).get "ZKF_" t ≤ hi
    rw [Panel.get_set, if_pos ⟨rfl, rfl⟩]
    obtain ⟨hc1, hc2⟩ := capacity_utilization_mem acc.1 t
    constructor
    · nlinarith [mul_nonneg h0 (sub_nonneg.mpr (hlo.trans hc1)),
        mul_nonneg (sub_nonneg.mpr h1) (sub_nonneg.mpr h2)]
    · nlinarith [mul_nonneg h0 (sub_nonneg.mpr (hc2.trans hhi)),
        mul_nonneg (sub_nonneg.mpr h1) (sub_nonneg.mpr h3)]
  · cases heq : eqs v with
    | none => rw [sweepStep_eq_none eqs relax t acc v heq]; exact ⟨h2, h3⟩
    | some e =>
      rw [sweepStep_eq_some eqs relax t acc v e heq]
      show lo ≤ (acc.1.set v t _).get "ZKF_" t ∧
        (acc.1.set v t _).get "ZKF_" t ≤ hi
      rw [Panel.get_set, if_neg fun hc => hv hc.1.symm]
      exact ⟨h2, h3⟩

lemma foldl_sweepStep_zkf_mem (eqs : Var → Option (EquationF α)) (relax : α)
    (t : Year) (h0 : 0 ≤ relax) (h1 : relax ≤ 1)
    (hz : eqs "ZKF_" = some capacity_utilization_compute)
    (lo hi : α) (hlo : lo ≤ 8 / 10) (hhi : 11 / 10 ≤ hi) :
    ∀ (l : List Var) (acc : Panel α × α),
      lo ≤ acc.1.get "ZKF_" t → acc.1.get "ZKF_" t ≤ hi →
      lo ≤ ((l.foldl (sweepStep eqs relax t) acc).1).get "ZKF_" t ∧
        ((l.foldl (sweepStep eqs relax t) acc).1).get "ZKF_" t ≤ hi := by
  intro l
  induction l with
  | nil => intro acc h2 h3; exact ⟨h2, h3⟩
  | cons w ws ih =>
    intro acc h2 h3
    rw [List.foldl_cons]
    obtain ⟨g1, g2⟩ :=
      sweepStep_zkf_mem eqs relax t h0 h1 hz lo hi hlo hhi acc w h2 h3
    exact ih _ g1 g2

lemma interGo_zkf_mem (eqs : Var → Option (EquationF α)) (order : List Var)
    (relax eps : α) (t : Year) (h0 : 0 ≤ relax) (h1 : relax ≤ 1)
    (hz : eqs "ZKF_" = some capacity_utilization_compute)
    (lo hi : α) (hlo : lo ≤ 8 / 10) (hhi : 11 / 10 ≤ hi) :
    ∀ (fuel it : ℕ) (mr : α) (p : Panel α),
      lo ≤ p.get "ZKF_" t → p.get "ZKF_" t ≤ hi →
      lo ≤ (interGo eqs order relax eps t fuel it mr p).panel.get "ZKF_" t ∧
        (interGo eqs order relax eps t fuel it mr p).panel.get "ZKF_" t ≤ hi := by
  intro fuel
  induction fuel with
  | zero => intro it mr p h2 h3; exact ⟨h2, h3⟩
  | succ n ih =>
    intro it mr p h2 h3
    obtain ⟨g1, g2⟩ :=
      foldl_sweepStep_zkf_mem eqs relax t h0 h1 hz lo hi hlo hhi order (p, 0)
        h2 h3
    simp only [interGo]
    split
    · exact ⟨g1, g2⟩
    · exact ih _ _ _ g1 g2

lemma interGo_converged_last_sweep (eqs : Var → Option (EquationF α))
    (order : List Var) (relax eps : α) (t : Year) :
    ∀ (fuel it : ℕ) (mr : α) (p : Panel α),
      (interGo eqs order relax eps t fuel it mr p).status =
          ConvergenceStatus.CONVERGED →
      ∃ q : Panel α,
        (interGo eqs order relax eps t fuel it mr p).panel =
            (sweep eqs order relax t q).1 ∧
          (sweep eqs order relax t q).2 < eps := by
  intro fuel
  induction fuel with
  | zero => intro it mr p h; exact absurd h (by simp [interGo])
  | succ n ih =>
    intro it mr p
    simp only [interGo]
    split
    · intro _
      exact ⟨p, rfl, by assumption⟩
    · exact ih _ _ _

lemma sweep_unemployment_update (eqs : Var → Option (EquationF α))
    (relax : α) (t : Year) (l1 l2 : List Var)
    (hU : eqs "U_" = some unemployment_compute)
    (hU2 : "U_" ∉ l2) (hL2 : "L_" ∉ l2) (hN2 : "NAT_" ∉ l2)
    (hG2 : "NG_" ∉ l2) (q : Panel α) :
    ∃ uold : α,
      (sweep eqs (l1 ++ "U_" :: l2) relax t q).1.get "U_" t =
        relax * ((sweep eqs (l1 ++ "U_" :: l2) relax t q).1.get "NAT_" t -
            (sweep eqs (l1 ++ "U_" :: l2) relax t q).1.get "L_" t -
            (sweep eqs (l1 ++ "U_" :: l2) relax t q).1.get "NG_" t) +
          (1 - relax) * uold ∧
      residual uold ((sweep eqs (l1 ++ "U_" :: l2) relax t q).1.get "U_" t) ≤
        (sweep eqs (l1 ++ "U_" :: l2) relax t q).2 := by
  have hsweep : sweep eqs (l1 ++ "U_" :: l2) relax t q =
      l2.foldl (sweepStep eqs relax t)
        (sweepStep eqs relax t (l1.foldl (sweepStep eqs relax t) (q, 0)) "U_") := by
    simp [sweep, List.foldl_append]
  set acc1 := l1.foldl (sweepStep eqs relax t) (q, 0) with hacc1
  have hstep := sweepStep_eq_some eqs relax t acc1 "U_" unemployment_compute hU
  set old := acc1.1.get "U_" t with hold
  set relaxed := relax * unemployment_compute acc1.1 t + (1 - relax) * old
    with hrelaxed
  refine ⟨old, ?_, ?_⟩
  · have hUfin : (sweep eqs (l1 ++ "U_" :: l2) relax t q).1.get "U_" t =
        relaxed := by
      rw [hsweep, foldl_sweepStep_get_not_mem eqs relax t "U_" t l2 hU2, hstep]
      show (acc1.1.set "U_" t relaxed).get "U_" t = relaxed
      rw [Panel.get_set, if_pos ⟨rfl, rfl⟩]
    have hother : ∀ w : Var, w ∉ l2 → w ≠ "U_" →
        (sweep eqs (l1 ++ "U_" :: l2) relax t q).1.get w t = acc1.1.get w t := by
      intro w hw hwU
      rw [hsweep, foldl_sweepStep_get_not_mem eqs relax t w t l2 hw, hstep]
      show (acc1.1.set "U_" t relaxed).get w t = acc1.1.get w t
      rw [Panel.get_set, if_neg fun hc => hwU hc.1]
    rw [hUfin, hother "NAT_" hN2 (by decide), hother "L_" hL2 (by decide),
      hother "NG_" hG2 (by decide), hrelaxed]
    rfl
  · have hUfin : (sweep eqs (l1 ++ "U_" :: l2) relax t q).1.get "U_" t =
        relaxed := by
      rw [hsweep, foldl_sweepStep_get_not_mem eqs relax t "U_" t l2 hU2, hstep]
      show (acc1.1.set "U_" t relaxed).get "U_" t = relaxed
      rw [Panel.get_set, if_pos ⟨rfl, rfl⟩]
    rw [hUfin, hsweep, hstep]
    exact le_trans (le_max_right _ _)
      (foldl_sweepStep_snd_le eqs relax t l2
        (acc1.1.set "U_" t relaxed, max acc1.2 (residual old relaxed)))

/-! ## Claim theorems

The arithmetic of `ℚ` in Batteries is sealed behind `@[irreducible]`
definitions; concrete solver runs are evaluated by `decide`, which needs
them unfolded. -/

attribute [local semireducible] Rat.mul Rat.add Rat.sub Rat.inv Rat.ofScientific

set_option maxRecDepth 100000

/-- Claim C1: for every simulation year the solver's inter phase sweeps the
fixed inter order; each variable update writes back
`relaxed = 0.2*raw + 0.8*old` and records the residual
`|relaxed-old|/|old|` when `|old| > 1e-10` and `|relaxed-old|` otherwise;
the phase exits `CONVERGED` exactly when a sweep's maximum residual drops
below `1e-4` (within the 1000-sweep budget), exits `MAX_ITERATIONS` after
exactly 1000 sweeps otherwise, and never raises on non-convergence: one
`ConvergenceReport` is returned for every year. -/
theorem solve_year_inter_phase_contract (reg : Registry α) (p : Panel α)
    (t : Year) (sim_years : List Year) :
    ((solve_year reg (2 / 10) (1 / 10000) 1000 p t).2.status =
        ConvergenceStatus.CONVERGED ∨
      (solve_year reg (2 / 10) (1 / 10000) 1000 p t).2.status =
        ConvergenceStatus.MAX_ITERATIONS) ∧
    ((solve_year reg (2 / 10) (1 / 10000) 1000 p t).2.status =
        ConvergenceStatus.CONVERGED →
      (solve_year reg (2 / 10) (1 / 10000) 1000 p t).2.max_residual < 1 / 10000 ∧
        1 ≤ (solve_year reg (2 / 10) (1 / 10000) 1000 p t).2.iterations ∧
        (solve_year reg (2 / 10) (1 / 10000) 1000 p t).2.iterations ≤ 1000) ∧
    ((solve_year reg (2 / 10) (1 / 10000) 1000 p t).2.status =
        ConvergenceStatus.MAX_ITERATIONS →
      (solve_year reg (2 / 10) (1 / 10000) 1000 p t).2.iterations = 1000 ∧
        1 / 10000 ≤ (solve_year reg (2 / 10) (1 / 10000) 1000 p t).2.max_residual) ∧
    (solve reg (2 / 10) (1 / 10000) 1000 p sim_years).2.length =
      sim_years.length ∧
    (∀ (q : Panel α) (m : α) (v : Var) (e : EquationF α), reg.eqs v = some e →
      sweepStep reg.eqs (2 / 10) t (q, m) v =
        (q.set v t ((2 / 10) * e q t + (1 - 2 / 10) * q.get v t),
          max m
            (if |q.get v t| > 1 / 10 ^ 10 then
              |(2 / 10) * e q t + (1 - 2 / 10) * q.get v t - q.get v t| /
                |q.get v t|
            else
              |(2 / 10) * e q t + (1 - 2 / 10) * q.get v t - q.get v t|))) := by
  refine ⟨solve_year_status reg _ _ 1000 p t, ?_, ?_,
    solve_reports_length reg _ _ 1000 p sim_years, ?_⟩
  · intro h
    refine ⟨interGo_converged_resid reg.eqs reg.inter _ _ t 1000 0 0 _ h, ?_⟩
    have h2 := interGo_converged_iterations reg.eqs reg.inter
      (2 / 10) (1 / 10000) t 1000 0 0 (runPhase reg.eqs reg.pre t p) h
    exact ⟨h2.1, by simpa using h2.2⟩
  · intro h
    have h2 := interGo_max_iterations reg.eqs reg.inter
      (2 / 10) (1 / 10000) t 1000 0 0 (runPhase reg.eqs reg.pre t p)
      (Or.inr (by omega)) h
    exact ⟨by simpa using h2.1, h2.2⟩
  · intro q m v e heq
    rw [sweepStep_eq_some reg.eqs (2 / 10) t (q, m) v e heq]
    rfl

/-- Claim C10: the solver never produces the `DIVERGED` status: every
report of `solve_year` (and hence of the year loop `solve`) carries either
`CONVERGED` or `MAX_ITERATIONS`, although `DIVERGED` is a declared member
of `ConvergenceStatus`. -/
theorem solver_never_reports_diverged (reg : Registry α) (relax eps : α)
    (max_iter : ℕ) (p : Panel α) (t : Year) (sim_years : List Year) :
    (solve_year reg relax eps max_iter p t).2.status ≠
        ConvergenceStatus.DIVERGED ∧
      ∀ c ∈ (solve reg relax eps max_iter p sim_years).2,
        c.status ≠ ConvergenceStatus.DIVERGED := by
  constructor
  · rcases solve_year_status reg relax eps max_iter p t with h | h <;>
      simp [h]
  · suffices hgen : ∀ (l : List Year) (acc : Panel α × List (YearConvergence α)),
        (∀ c ∈ acc.2, c.status ≠ ConvergenceStatus.DIVERGED) →
        ∀ c ∈ (l.foldl (solveStep reg relax eps max_iter) acc).2,
          c.status ≠ ConvergenceStatus.DIVERGED by
      intro c hc
      exact hgen sim_years (p, []) (by simp) c hc
    intro l
    induction l with
    | nil => intro acc h; exact h
    | cons y ys ih =>
      intro acc h
      rw [List.foldl_cons]
      apply ih
      intro c hc
      have hc2 : c ∈ acc.2 ++ [(solve_year reg relax eps max_iter acc.1 y).2] := hc
      rcases List.mem_append.mp hc2 with hmem | hmem
      · exact h c hmem
      · have : c = (solve_year reg relax eps max_iter acc.1 y).2 := by
          simpa using hmem
        subst this
        rcases solve_year_status reg relax eps max_iter acc.1 y with h1 | h1 <;>
          simp [h1]

/-- Claim C2 (amended): the capacity-utilisation equation always computes
a raw value inside `[0.80, 1.10]`, and a solver run can only move the
stored `ZKF_` cell inside the hull of its starting value and that band:
after `solve_year`, `min(start, 0.80) ≤ ZKF_ ≤ max(start, 1.10)`.  The
original claim's bounds `0.80 ≤ ZKF_ ≤ 1.10` need not hold because the
solver stores the under-relaxed mix of the clamped value with the old
cell value. -/
theorem zkf_bounded_by_initial_hull (reg : Registry α) (relax eps : α)
    (max_iter : ℕ) (p : Panel α) (t : Year)
    (hz : reg.eqs "ZKF_" = some capacity_utilization_compute)
    (h0 : 0 ≤ relax) (h1 : relax ≤ 1)
    (hpre : "ZKF_" ∉ reg.pre) (hpost : "ZKF_" ∉ reg.post) :
    (8 / 10 ≤ capacity_utilization_compute p t ∧
      capacity_utilization_compute p t ≤ 11 / 10) ∧
    min (p.get "ZKF_" t) (8 / 10) ≤
        (solve_year reg relax eps max_iter p t).1.get "ZKF_" t ∧
      (solve_year reg relax eps max_iter p t).1.get "ZKF_" t ≤
        max (p.get "ZKF_" t) (11 / 10) := by
  refine ⟨capacity_utilization_mem p t, ?_⟩
  have hpre2 : (runPhase reg.eqs reg.pre t p).get "ZKF_" t = p.get "ZKF_" t :=
    runPhase_get_not_mem reg.eqs t "ZKF_" t reg.pre hpre p
  have hmem := interGo_zkf_mem reg.eqs reg.inter relax eps t h0 h1 hz
    (min (p.get "ZKF_" t) (8 / 10)) (max (p.get "ZKF_" t) (11 / 10))
    (min_le_right _ _) (le_max_right _ _) max_iter 0 0
    (runPhase reg.eqs reg.pre t p)
    (by rw [hpre2]; exact min_le_left _ _)
    (by rw [hpre2]; exact le_max_left _ _)
  have hpost2 : (solve_year reg relax eps max_iter p t).1.get "ZKF_" t =
      (interGo reg.eqs reg.inter relax eps t max_iter 0 0
        (runPhase reg.eqs reg.pre t p)).panel.get "ZKF_" t :=
    runPhase_get_not_mem reg.eqs t "ZKF_" t reg.post hpost _
  rw [hpost2]
  exact hmem

/-- A two-year test panel for the capacity-utilisation runs: `Y_ = 8` and
`YSTAR_ = 10` in both years, every other cell (including `ZKF_`) zero. -/
def zkfPanel : Panel ℚ :=
  ⟨["Y_", "YSTAR_", "ZKF_"], [0, 1],
   fun v _ => if v = "Y_" then 8 else if v = "YSTAR_" then 10 else 0⟩

/-- A registry whose inter phase consists of the capacity-utilisation
equation alone. -/
def zkfRegistry : Registry ℚ :=
  ⟨[], ["ZKF_"], [],
   fun v => if v = "ZKF_" then some capacity_utilization_compute else none⟩

/-- Claim C2 (counterexample): on a panel with `Y_/YSTAR_ = 0.8` and the
`ZKF_` cell starting at `0`, the solver converges yet stores a `ZKF_`
value strictly below `0.80`: under-relaxation only approaches the clamped
band, so the claimed invariant `0.80 ≤ ZKF_(t)` fails. -/
theorem zkf_range_invariant_counterexample :
    (solve_year zkfRegistry (2 / 10) (1 / 10000) 1000 zkfPanel 1).2.status =
        ConvergenceStatus.CONVERGED ∧
      (solve_year zkfRegistry (2 / 10) (1 / 10000) 1000 zkfPanel 1).1.get
          "ZKF_" 1 < 8 / 10 := by
  decide

/-- Witness for the amended claim C2 at a concrete run. -/
theorem zkf_bounded_by_initial_hull_witness :
    (8 / 10 ≤ capacity_utilization_compute zkfPanel 1 ∧
      capacity_utilization_compute zkfPanel 1 ≤ 11 / 10) ∧
    min (zkfPanel.get "ZKF_" 1) (8 / 10) ≤
        (solve_year zkfRegistry (2 / 10) (1 / 10000) 1000 zkfPanel 1).1.get
          "ZKF_" 1 ∧
      (solve_year zkfRegistry (2 / 10) (1 / 10000) 1000 zkfPanel 1).1.get
          "ZKF_" 1 ≤ max (zkfPanel.get "ZKF_" 1) (11 / 10) :=
  zkf_bounded_by_initial_hull zkfRegistry (2 / 10) (1 / 10000) 1000 zkfPanel 1
    rfl (by norm_num) (by norm_num) (by decide) (by decide)

/-- Claim C3 (amended): the solver stores the under-relaxed value
`U = 0.2*(NAT - L - NG) + 0.8*old` rather than the exact identity, so
after a `CONVERGED` year the labour balance `U + L + NG = NAT` holds only
up to the convergence tolerance - the gap is bounded by
`4 * eps * max(|old|, 1)` for the pre-update value `old` of `U_` in the
final sweep - not up to floating error. -/
theorem unemployment_identity_within_tolerance (reg : Registry α) (eps : α)
    (max_iter : ℕ) (p : Panel α) (t : Year) (l1 l2 : List Var)
    (horder : reg.inter = l1 ++ "U_" :: l2)
    (hU : reg.eqs "U_" = some unemployment_compute)
    (hU2 : "U_" ∉ l2) (hL2 : "L_" ∉ l2) (hN2 : "NAT_" ∉ l2) (hG2 : "NG_" ∉ l2)
    (hUp : "U_" ∉ reg.post) (hLp : "L_" ∉ reg.post) (hNp : "NAT_" ∉ reg.post)
    (hGp : "NG_" ∉ reg.post)
    (hconv : (solve_year reg (2 / 10) eps max_iter p t).2.status =
      ConvergenceStatus.CONVERGED) :
    ∃ uold : α,
      (solve_year reg (2 / 10) eps max_iter p t).1.get "U_" t =
        (2 / 10) * ((solve_year reg (2 / 10) eps max_iter p t).1.get "NAT_" t -
            (solve_year reg (2 / 10) eps max_iter p t).1.get "L_" t -
            (solve_year reg (2 / 10) eps max_iter p t).1.get "NG_" t) +
          (1 - 2 / 10) * uold ∧
      |(solve_year reg (2 / 10) eps max_iter p t).1.get "U_" t +
          (solve_year reg (2 / 10) eps max_iter p t).1.get "L_" t +
          (solve_year reg (2 / 10) eps max_iter p t).1.get "NG_" t -
          (solve_year reg (2 / 10) eps max_iter p t).1.get "NAT_" t| <
        4 * eps * max |uold| 1 := by
  have hpostframe : ∀ w : Var, w ∉ reg.post →
      (solve_year reg (2 / 10) eps max_iter p t).1.get w t =
        (interGo reg.eqs reg.inter (2 / 10) eps t max_iter 0 0
          (runPhase reg.eqs reg.pre t p)).panel.get w t := by
    intro w hw
    exact runPhase_get_not_mem reg.eqs t w t reg.post hw _
  obtain ⟨q, hq, hqres⟩ := interGo_converged_last_sweep reg.eqs reg.inter
    (2 / 10) eps t max_iter 0 0 (runPhase reg.eqs reg.pre t p) hconv
  obtain ⟨uold, hupd, hres⟩ := sweep_unemployment_update reg.eqs (2 / 10) t
    l1 l2 hU hU2 hL2 hN2 hG2 q
  rw [horder] at hqres
  refine ⟨uold, ?_, ?_⟩
  · rw [hpostframe "U_" hUp, hpostframe "NAT_" hNp, hpostframe "L_" hLp,
      hpostframe "NG_" hGp, hq, horder]
    exact hupd
  · rw [hpostframe "U_" hUp, hpostframe "NAT_" hNp, hpostframe "L_" hLp,
      hpostframe "NG_" hGp, hq, horder]
    set sw := sweep reg.eqs (l1 ++ "U_" :: l2) (2 / 10) t q with hsw
    set uf := sw.1.get "U_" t with huf
    set lf := sw.1.get "L_" t with hlf
    set nf := sw.1.get "NAT_" t with hnf
    set gf := sw.1.get "NG_" t with hgf
    have hresid : residual uold uf < eps := lt_of_le_of_lt hres hqres
    have habs : |uf - uold| < eps * max |uold| 1 :=
      abs_sub_lt_of_residual_lt uold uf eps hresid
    have hlin : uf + lf + gf - nf = -(4 * (uf - uold)) := by
      linear_combination (5 : α) * hupd
    rw [hlin, abs_neg, abs_mul, abs_of_nonneg (by norm_num : (0:α) ≤ 4)]
    calc 4 * |uf - uold| < 4 * (eps * max |uold| 1) := by linarith
      _ = 4 * eps * max |uold| 1 := by ring

/-- A two-year test panel for the labour-balance runs: `NAT_ = 1` in both
years, every other cell (including `U_`, `L_`, `NG_`) zero. -/
def uPanel : Panel ℚ :=
  ⟨["NAT_", "L_", "NG_", "U_"], [0, 1],
   fun v _ => if v = "NAT_" then 1 else 0⟩

/-- A registry whose inter phase consists of the unemployment identity
alone. -/
def uRegistry : Registry ℚ :=
  ⟨[], ["U_"], [],
   fun v => if v = "U_" then some unemployment_compute else none⟩

/-- Claim C3 (counterexample): with `NAT_ = 1` and `U_` starting at `0`
the solver converges, yet `U_ + L_ + NG_ - NAT_` is about `-3.2e-4`
(`-0.8^36` exactly) - several thousand times floating error for
magnitude-one quantities - so the identity does not hold up to floating
error. -/
theorem unemployment_identity_counterexample :
    (solve_year uRegistry (2 / 10) (1 / 10000) 1000 uPanel 1).2.status =
        ConvergenceStatus.CONVERGED ∧
      |(solve_year uRegistry (2 / 10) (1 / 10000) 1000 uPanel 1).1.get "U_" 1 +
          (solve_year uRegistry (2 / 10) (1 / 10000) 1000 uPanel 1).1.get "L_" 1 +
          (solve_year uRegistry (2 / 10) (1 / 10000) 1000 uPanel 1).1.get "NG_" 1 -
          (solve_year uRegistry (2 / 10) (1 / 10000) 1000 uPanel 1).1.get "NAT_" 1| >
        1 / 10 ^ 7 := by
  decide

/-- Witness for the amended claim C3 at a concrete converged run. -/
theorem unemployment_identity_within_tolerance_witness :
    ∃ uold : ℚ,
      (solve_year uRegistry (2 / 10) (1 / 10000) 1000 uPanel 1).1.get "U_" 1 =
        (2 / 10) *
            ((solve_year uRegistry (2 / 10) (1 / 10000) 1000 uPanel 1).1.get "NAT_" 1 -
              (solve_year uRegistry (2 / 10) (1 / 10000) 1000 uPanel 1).1.get "L_" 1 -
              (solve_year uRegistry (2 / 10) (1 / 10000) 1000 uPanel 1).1.get "NG_" 1) +
          (1 - 2 / 10) * uold ∧
      |(solve_year uRegistry (2 / 10) (1 / 10000) 1000 uPanel 1).1.get "U_" 1 +
          (solve_year uRegistry (2 / 10) (1 / 10000) 1000 uPanel 1).1.get "L_" 1 +
          (solve_year uRegistry (2 / 10) (1 / 10000) 1000 uPanel 1).1.get "NG_" 1 -
          (solve_year uRegistry (2 / 10) (1 / 10000) 1000 uPanel 1).1.get "NAT_" 1| <
        4 * (1 / 10000) * max |uold| 1 :=
  unemployment_identity_within_tolerance uRegistry (1 / 10000) 1000 uPanel 1
    [] [] rfl rfl (by decide) (by decide) (by decide) (by decide) (by decide)
    (by decide) (by decide) (by decide) (by decide)

/-- The error, if any, `validate_instruments` reports for one entry:
an unknown-key message, an out-of-range message, or none. -/
def instrument_error (render : α → String) (kv : String × α) : Option String :=
  match instrument_map kv.1 with
  | none => some ("Unknown instrument: " ++ kv.1)
  | some spec =>
    if kv.2 < spec.min_val ∨ kv.2 > spec.max_val then
      some (kv.1 ++ ": " ++ render kv.2 ++ " out of range [" ++
        render spec.min_val ++ ", " ++ render spec.max_val ++ "]")
    else none

lemma validate_step_eq (render : α → String) (errs : List String)
    (kv : String × α) :
    validate_step render errs kv = errs ++ (instrument_error render kv).toList := by
  unfold validate_step instrument_error
  cases instrument_map (α := α) kv.1 with
  | none => rfl
  | some spec =>
    by_cases h : kv.2 < spec.min_val ∨ kv.2 > spec.max_val
    · simp [h]
    · simp [h]

lemma validate_instruments_eq_filterMap (render : α → String)
    (values : List (String × α)) :
    validate_instruments render values =
      values.filterMap (instrument_error render) := by
  suffices h : ∀ (l : List (String × α)) (acc : List String),
      l.foldl (validate_step render) acc =
        acc ++ l.filterMap (instrument_error render) by
    simpa using h values []
  intro l
  induction l with
  | nil => intro acc; simp
  | cons kv kvs ih =>
    intro acc
    rw [List.foldl_cons, ih, validate_step_eq]
    cases herr : instrument_error render kv with
    | none => simp [herr]
    | some msg => simp [herr]

lemma lookup_map_self {κ β : Type} [BEq κ] [LawfulBEq κ] (l : List κ)
    (f : κ → β) (k : κ) (hk : k ∈ l) :
    (l.map fun x => (x, f x)).lookup k = some (f k) := by
  induction l with
  | nil => cases hk
  | cons x xs ih =>
    by_cases hkx : k = x
    · subst hkx
      simp [List.lookup]
    · have hk2 : k ∈ xs := by
        rcases List.mem_cons.mp hk with h | h
        · exact absurd h hkx
        · exact h
      have hbeq : (k == x) = false := beq_eq_false_iff_ne.mpr hkx
      simp [List.lookup, hbeq, ih hk2]

/-- The value `compute_impacts` stores for a listed variable and year. -/
lemma compute_impacts_at (b s : Panel α) (varList : List Var)
    (sim_years : List Year) (v : Var) (t : Year)
    (hv : v ∈ varList) (ht : t ∈ sim_years) :
    impact_at (compute_impacts b s varList sim_years) v t =
      some
        (if v ∈ ABSOLUTE_IMPACT_VARS then (s.get v t - b.get v t) * 100
         else if |b.get v t| > 1 / 10 ^ 10 then
           (s.get v t - b.get v t) / b.get v t * 100
         else 0) := by
  unfold impact_at compute_impacts
  rw [lookup_map_self varList _ v hv]
  simp only [Option.some_bind]
  rw [lookup_map_self sim_years _ t ht]

/-- Claim C6: `compute_impacts` follows the per-variable rule - for a
ratio variable the impact is `(scenario - baseline) * 100`, otherwise
`(scenario - baseline)/baseline * 100` when `|baseline| > 1e-10`, and `0`
otherwise. -/
theorem compute_impacts_per_variable_rule (b s : Panel α) (varList : List Var)
    (sim_years : List Year) (v : Var) (t : Year)
    (hv : v ∈ varList) (ht : t ∈ sim_years) :
    impact_at (compute_impacts b s varList sim_years) v t =
      some
        (if v ∈ ABSOLUTE_IMPACT_VARS then (s.get v t - b.get v t) * 100
         else if |b.get v t| > 1 / 10 ^ 10 then
           (s.get v t - b.get v t) / b.get v t * 100
         else 0) :=
  compute_impacts_at b s varList sim_years v t hv ht

/-- A concrete baseline panel for the impact-rule witness. -/
def impactPanelBase : Panel ℚ := ⟨["GDP_"], [0, 1], fun _ _ => 4⟩

/-- A concrete scenario panel for the impact-rule witness. -/
def impactPanelScen : Panel ℚ := ⟨["GDP_"], [0, 1], fun _ _ => 5⟩

/-- Witness for claim C6 at a concrete variable and year. -/
theorem compute_impacts_per_variable_rule_witness :
    ("GDP_" ∈ ["GDP_"] ∧ (1 : Year) ∈ [(1 : Year)]) ∧
    impact_at (compute_impacts impactPanelBase impactPanelScen ["GDP_"] [1])
        "GDP_" 1 =
      some
        (if "GDP_" ∈ ABSOLUTE_IMPACT_VARS then
          (impactPanelScen.get "GDP_" 1 - impactPanelBase.get "GDP_" 1) * 100
         else if |impactPanelBase.get "GDP_" 1| > 1 / 10 ^ 10 then
           (impactPanelScen.get "GDP_" 1 - impactPanelBase.get "GDP_" 1) /
             impactPanelBase.get "GDP_" 1 * 100
         else 0) :=
  ⟨⟨by decide, by decide⟩,
    compute_impacts_per_variable_rule impactPanelBase impactPanelScen
      ["GDP_"] [1] "GDP_" 1 (by decide) (by decide)⟩

/-- Claim C5 (amended): the impacts of a simulate call are all zero
exactly when the solved scenario panel agrees with the (unsolved) baseline
panel at every impact-sensitive cell - every (variable, year) with the
variable in the ratio set, or with `|baseline| > 1e-10`.  `simulate`
solves the scenario copy but never solves the baseline, so a
default-instrument run yields zero impacts only if the baseline is an
exact fixed point of the solved model, which the code does not guarantee. -/
theorem impacts_all_zero_iff_scenario_matches_baseline (b s : Panel α)
    (varList : List Var) (sim_years : List Year) :
    (∀ v ∈ varList, ∀ t ∈ sim_years,
      impact_at (compute_impacts b s varList sim_years) v t = some 0) ↔
    ∀ v ∈ varList, ∀ t ∈ sim_years,
      (v ∈ ABSOLUTE_IMPACT_VARS → s.get v t = b.get v t) ∧
      (v ∉ ABSOLUTE_IMPACT_VARS → |b.get v t| > 1 / 10 ^ 10 →
        s.get v t = b.get v t) := by
  have key : ∀ v ∈ varList, ∀ t ∈ sim_years,
      (impact_at (compute_impacts b s varList sim_years) v t = some 0 ↔
        ((v ∈ ABSOLUTE_IMPACT_VARS → s.get v t = b.get v t) ∧
          (v ∉ ABSOLUTE_IMPACT_VARS → |b.get v t| > 1 / 10 ^ 10 →
            s.get v t = b.get v t))) := by
    intro v hv t ht
    rw [compute_impacts_at b s varList sim_years v t hv ht, Option.some_inj]
    by_cases habs : v ∈ ABSOLUTE_IMPACT_VARS
    · rw [if_pos habs]
      constructor
      · intro h
        refine ⟨fun _ => ?_, fun hn => absurd habs hn⟩
        rcases mul_eq_zero.mp h with h1 | h1
        · exact sub_eq_zero.mp h1
        · exact absurd h1 (by norm_num)
      · rintro ⟨h1, _⟩
        rw [h1 habs]
        ring
    · rw [if_neg habs]
      by_cases hb : |b.get v t| > 1 / 10 ^ 10
      · rw [if_pos hb]
        have hbne : b.get v t ≠ 0 := by
          intro h0
          rw [h0, abs_zero] at hb
          have hpos : (0 : α) < 1 / 10 ^ 10 := by positivity
          linarith
        constructor
        · intro h
          refine ⟨fun ha => absurd ha habs, fun _ _ => ?_⟩
          rcases mul_eq_zero.mp h with h1 | h1
          · rcases div_eq_zero_iff.mp h1 with h2 | h2
            · exact sub_eq_zero.mp h2
            · exact absurd h2 hbne
          · exact absurd h1 (by norm_num)
        · rintro ⟨_, h2⟩
          rw [h2 habs hb]
          simp
      · rw [if_neg hb]
        constructor
        · intro _
          exact ⟨fun ha => absurd ha habs, fun _ hcon => absurd hcon hb⟩
        · intro _
          rfl
  constructor
  · intro h v hv t ht
    exact (key v hv t ht).mp (h v hv t ht)
  · intro h v hv t ht
    exact (key v hv t ht).mpr (h v hv t ht)

/-- A two-year baseline panel whose `GDP_` value (`1`) is not a fixed
point of its registry's single equation (constant `2`). -/
def c5Panel : Panel ℚ :=
  ⟨["GDP_"], [0, 1], fun v _ => if v = "GDP_" then 1 else 0⟩

/-- A registry whose inter phase drives `GDP_` towards `2`. -/
def c5Registry : Registry ℚ :=
  ⟨[], ["GDP_"], [], fun v => if v = "GDP_" then some (fun _ _ => 2) else none⟩

/-- The `GDP_` impact at the single simulation year of a simulate result. -/
def c5_extract : Except String (SimulationOutput ℚ) → Option ℚ
  | .error _ => none
  | .ok out => impact_at out.impacts "GDP_" 1

/-- Claim C5 (counterexample): a simulate call with every instrument at
its catalogue default (`instrument_values = None`) still solves the
scenario against the unsolved baseline; on a baseline that is not a fixed
point of the model the reported `GDP_` impact is nonzero. -/
theorem default_instruments_nonzero_impact :
    c5_extract (simulate c5Registry ⟨c5Panel⟩ none "Scenario"
        (fun _ => "")).2 ≠ some 0 ∧
      c5_extract (simulate c5Registry ⟨c5Panel⟩ none "Scenario"
        (fun _ => "")).2 ≠ none := by
  decide

/-- Claim C4: `validate_instruments` emits exactly one error per
offending entry (unknown key or out-of-range value) and returns the empty
list exactly when every entry is valid; `simulate` with a non-empty
invalid instrument dict returns the engine unchanged together with a
`ValueError` whose message is `Invalid instruments: ` followed by the
`; `-joined error list - no simulation output is produced and no panel
state is touched. -/
theorem validate_errors_and_simulate_rejects (render : α → String)
    (vs : List (String × α)) (reg : Registry α) (e : SimulationEngine α)
    (nm : String) :
    validate_instruments render vs = vs.filterMap (instrument_error render) ∧
    (validate_instruments render vs = [] ↔
      ∀ kv ∈ vs, ∃ spec : InstrumentSpec α,
        instrument_map kv.1 = some spec ∧
          spec.min_val ≤ kv.2 ∧ kv.2 ≤ spec.max_val) ∧
    (vs ≠ [] → validate_instruments render vs ≠ [] →
      simulate reg e (some vs) nm render =
        (e, Except.error ("Invalid instruments: " ++
          String.intercalate "; " (validate_instruments render vs)))) := by
  refine ⟨validate_instruments_eq_filterMap render vs, ?_, ?_⟩
  · rw [validate_instruments_eq_filterMap render vs, List.filterMap_eq_nil]
    constructor
    · intro h kv hkv
      have h2 := h kv hkv
      unfold instrument_error at h2
      cases hmap : instrument_map (α := α) kv.1 with
      | none => rw [hmap] at h2; simp at h2
      | some spec =>
        rw [hmap] at h2
        by_cases hrange : kv.2 < spec.min_val ∨ kv.2 > spec.max_val
        · simp [hrange] at h2
        · push_neg at hrange
          exact ⟨spec, rfl, hrange.1, hrange.2⟩
    · intro h kv hkv
      obtain ⟨spec, hmap, hmin, hmax⟩ := h kv hkv
      have hnot : ¬(kv.2 < spec.min_val ∨ kv.2 > spec.max_val) := by
        push_neg
        exact ⟨hmin, hmax⟩
      unfold instrument_error
      rw [hmap]
      simp [hnot]
  · intro hvs herr
    simp only [simulate]
    rw [if_neg hvs, if_pos herr]

/-- Claim C9: `simulate` is deterministic and side-effect free on the
engine - it returns the engine's stored baseline unchanged, a second call
with the same inputs returns an identical output, and the scenario's deep
copy of the baseline equals the baseline as a value. -/
theorem simulate_deterministic_and_baseline_preserving (reg : Registry α)
    (e : SimulationEngine α) (vals : Option (List (String × α))) (nm : String)
    (render : α → String) :
    (simulate reg e vals nm render).1 = e ∧
    (simulate reg (simulate reg e vals nm render).1 vals nm render).2 =
      (simulate reg e vals nm render).2 ∧
    e.baseline.copy = e.baseline := by
  have h1 : (simulate reg e vals nm render).1 = e := by
    cases vals with
    | none => rfl
    | some vs =>
      simp only [simulate]
      split
      · rfl
      · split <;> rfl
  exact ⟨h1, by rw [h1], rfl⟩

/-- Claim C8: `clamped_exp(x) = exp(clamp(x, -0.5, 0.5))`, hence
`exp(-0.5) ≤ clamped_exp(x) ≤ exp(0.5)`; consequently every behavioral
log-change update with positive previous value `prev` produces a value in
`[prev*exp(-0.5), prev*exp(0.5)]` regardless of how large the computed
log-change expression is. -/
theorem safe_exp_clamp_bounds (x : ℝ) :
    safe_exp x = Real.exp (max (-(1 / 2)) (min (1 / 2) x)) ∧
    Real.exp (-(1 / 2)) ≤ safe_exp x ∧ safe_exp x ≤ Real.exp (1 / 2) ∧
    ∀ prev : ℝ, 0 < prev →
      prev * Real.exp (-(1 / 2)) ≤ prev * safe_exp x ∧
        prev * safe_exp x ≤ prev * Real.exp (1 / 2) := by
  have hlo : Real.exp (-(1 / 2)) ≤ safe_exp x :=
    Real.exp_le_exp.mpr (le_max_left _ _)
  have hhi : safe_exp x ≤ Real.exp (1 / 2) :=
    Real.exp_le_exp.mpr (max_le (by norm_num) (min_le_left _ _))
  exact ⟨rfl, hlo, hhi, fun prev hp =>
    ⟨mul_le_mul_of_nonneg_left hlo hp.le,
      mul_le_mul_of_nonneg_left hhi hp.le⟩⟩

/-- Claim C7: numerical degeneracy never raises an error - `dln` returns
`0.0` whenever the current or lagged value is non-positive, `grt` returns
`0.0` whenever the lagged value is zero, and every behavioral log-change
equation returns `lag(target, t)` unchanged whenever `lag(target, t) ≤ 0`. -/
theorem numerical_degeneracy_guards (sc : ML2Scalars ℝ) (p : Panel ℝ)
    (v : Var) (t : Year) :
    ((p.get v t ≤ 0 ∨ p.lag v t 1 ≤ 0) → dln p v t = 0) ∧
    (p.lag v t 1 = 0 → p.grt v t = 0) ∧
    (p.lag "LH_" t 1 ≤ 0 → labour_hours_compute sc p t = p.lag "LH_" t 1) ∧
    (p.lag "W_" t 1 ≤ 0 → wage_compute sc p t = p.lag "W_" t 1) ∧
    (p.lag "C_" t 1 ≤ 0 → consumption_compute sc p t = p.lag "C_" t 1) ∧
    (p.lag "IF_" t 1 ≤ 0 →
      business_investment_compute sc p t = p.lag "IF_" t 1) ∧
    (p.lag "IH_" t 1 ≤ 0 →
      housing_investment_compute sc p t = p.lag "IH_" t 1) ∧
    (p.lag "X_" t 1 ≤ 0 → export_volume_compute sc p t = p.lag "X_" t 1) ∧
    (p.lag "M_" t 1 ≤ 0 → import_volume_compute sc p t = p.lag "M_" t 1) ∧
    (p.lag "PC_" t 1 ≤ 0 → consumer_price_compute sc p t = p.lag "PC_" t 1) ∧
    (p.lag "PIF_" t 1 ≤ 0 →
      business_investment_deflator_compute sc p t = p.lag "PIF_" t 1) ∧
    (p.lag "PIH_" t 1 ≤ 0 →
      housing_investment_deflator_compute sc p t = p.lag "PIH_" t 1) ∧
    (p.lag "PX_" t 1 ≤ 0 → export_price_compute sc p t = p.lag "PX_" t 1) := by
  refine ⟨?_, ?_, ?_, ?_, ?_, ?_, ?_, ?_, ?_, ?_, ?_, ?_, ?_⟩
  · intro h
    simp only [dln]
    rw [if_pos h]
  · intro h
    simp only [Panel.grt]
    rw [if_pos h]
  · intro h
    simp only [labour_hours_compute]
    rw [if_pos h]
  · intro h
    simp only [wage_compute]
    rw [if_pos h]
  · intro h
    simp only [consumption_compute]
    rw [if_pos h]
  · intro h
    simp only [business_investment_compute]
    rw [if_pos h]
  · intro h
    simp only [housing_investment_compute]
    rw [if_pos h]
  · intro h
    simp only [export_volume_compute]
    rw [if_pos h]
  · intro h
    simp only [import_volume_compute]
    rw [if_pos h]
  · intro h
    simp only [consumer_price_compute]
    rw [if_pos h]
  · intro h
    simp only [business_investment_deflator_compute]
    rw [if_pos h]
  · intro h
    simp only [housing_investment_deflator_compute]
    rw [if_pos h]
  · intro h
    simp only [export_price_compute]
    rw [if_pos h]

end ML2
